import Mathlib

/-!
Verification development for the static code analysis engine of the
project-analyzer repository.  The definitions below are a shallow embedding
of `src/code_analyzer.py` (the legacy top-level analyzer) and of
`src/src/analyzers/code_analyzer.py` (the packaged analyzer); the two share
most pass logic but differ in the dispatcher and in the import pass.
Findings are plain strings, exactly as in the source; exceptions that the
source catches are modelled as explicit outcome values.
-/

namespace ProjectAnalyzer

/-- A single-quote character, used when assembling finding messages. -/
def sq : String := "\x27"

/-- Python's substring test `p in s`, on the underlying character lists. -/
def containsSub (s p : String) : Bool := decide (p.data <:+: s.data)

/-- Python's `s.startswith("_")`. -/
def startsUnderscore (s : String) : Bool := s.take 1 == "_"

/-- Python's `s.isupper()` restricted to ASCII identifiers: at least one
cased character and no lowercase character. -/
def pyIsUpper (s : String) : Bool :=
  s.data.any (fun c => c.isUpper) && s.data.all (fun c => !c.isLower)

/-! ### The Python abstract syntax tree fragment used by the passes

Constructors mirror the `ast` node classes the analyzer inspects:
`Module`, `Expr`, `Assign`, `FunctionDef`, `ClassDef`, `Import`,
`ImportFrom`, `Name`, `Call` and a catch-all `Constant`.  Import aliases
carry `(name, asname)`.  `FunctionDef` carries the positional parameter
names (`args.args`), the number of defaults (`len(args.defaults)`) and the
decorator nodes; `Call` carries the callee node, the positional argument
nodes and `len(keywords)`.  `Name` carries its identifier and whether its
context is `Load`. -/
inductive Node where
  | module (body : List Node)
  | exprStmt (value : Node) (lineno : Nat)
  | assign (targets : List Node) (value : Node) (lineno : Nat)
  | functionDef (nm : String) (params : List String) (numDefaults : Nat)
      (decorators : List Node) (body : List Node) (lineno : Nat)
  | classDef (nm : String) (decorators : List Node) (body : List Node) (lineno : Nat)
  | importStmt (names : List (String × Option String)) (lineno : Nat)
  | importFrom (mod : Option String) (names : List (String × Option String)) (lineno : Nat)
  | name (id : String) (isLoad : Bool) (lineno : Nat)
  | call (fn : Node) (args : List Node) (numKeywords : Nat) (lineno : Nat)
  | constant (lineno : Nat)

/-- The child nodes of a node, in the field order `ast.iter_child_nodes`
uses (for `FunctionDef`/`ClassDef` the body precedes the decorator list). -/
def Node.children : Node → List Node
  | .module body => body
  | .exprStmt v _ => [v]
  | .assign targets v _ => targets ++ [v]
  | .functionDef _ _ _ decorators body _ => body ++ decorators
  | .classDef _ decorators body _ => body ++ decorators
  | .importStmt _ _ => []
  | .importFrom _ _ _ => []
  | .name _ _ _ => []
  | .call fn args _ _ => fn :: args
  | .constant _ => []

mutual

/-- The number of nodes in a tree. -/
def Node.sz : Node → Nat
  | .module body => 1 + szList body
  | .exprStmt v _ => 1 + Node.sz v
  | .assign targets v _ => 1 + szList targets + Node.sz v
  | .functionDef _ _ _ decorators body _ => 1 + szList body + szList decorators
  | .classDef _ decorators body _ => 1 + szList body + szList decorators
  | .importStmt _ _ => 1
  | .importFrom _ _ _ => 1
  | .name _ _ _ => 1
  | .call fn args _ _ => 1 + Node.sz fn + szList args
  | .constant _ => 1

/-- The total number of nodes in a list of trees. -/
def szList : List Node → Nat
  | [] => 0
  | n :: ns => Node.sz n + szList ns

end

/-- Breadth-first traversal of a node queue with explicit fuel; one unit of
fuel is spent per dequeued node, so any fuel at least the number of nodes
reachable from the queue yields the complete `ast.walk` order. -/
def walkFuel : Nat → List Node → List Node
  | _, [] => []
  | 0, _ :: _ => []
  | fuel + 1, n :: rest => n :: walkFuel fuel (rest ++ n.children)

/-- `ast.walk`: breadth-first order of all nodes reachable from the queue.
The fuel `szList q` is exactly the number of nodes traversed. -/
def walk (q : List Node) : List Node := walkFuel (szList q) q

/-! ### Per-file oracle data

Reading and parsing a file, and attempting a module import, are effects of
the host runtime; each file carries their outcomes explicitly.  The
`except` blocks of the source catch every exception, so an exception is an
outcome value, never a propagating failure. -/

/-- Outcome of `open(...)` + `ast.parse(...)` on one file: a tree, a
`SyntaxError` with line and message, or any other exception (e.g. a
decoding failure) with its message. -/
inductive ParseOutcome where
  | ok (tree : Node)
  | syntaxIssue (lineno : Nat) (msg : String)
  | failure (msg : String)

/-- Outcome of `importlib.import_module` on one module: success, an
`ImportError` carrying `str(e)`, or any other exception. -/
inductive ImportOutcome where
  | ok
  | importError (msg : String)
  | otherExc (msg : String)

/-- Outcome of the per-file body of the legacy `_check_import_errors` loop:
the file was skipped (`__init__.py` or a `venv` path), the import attempt
ran with the given outcome, or the preparation before the attempt (e.g.
`relative_to`) raised. -/
inductive ImportCheckOutcome where
  | skipped
  | attempted (o : ImportOutcome)
  | outerFailure (msg : String)

/-- One discovered source file: its path and the oracle outcomes of the
host-runtime effects the passes perform on it. -/
structure FileData where
  path : String
  parse : ParseOutcome
  importCheck : ImportCheckOutcome

/-- The `{"errors": ..., "warnings": ...}` mapping every analysis returns. -/
structure AnalysisResult where
  errors : List String
  warnings : List String
  deriving DecidableEq, Repr

/-! ### Syntax pass (`_check_syntax_errors`) -/

/-- Error message for a parse failure, legacy version. -/
def syntaxErrMsg (path : String) (lineno : Nat) (msg : String) : String :=
  "SYNTAX ERROR in " ++ path ++ ": Line " ++ toString lineno ++ ": " ++ msg

/-- Findings of the legacy syntax pass for one file: `(errors, warnings)`. -/
def syntaxFindingsFile (f : FileData) : List String × List String :=
  match f.parse with
  | .ok _ => ([], [])
  | .syntaxIssue l m => ([syntaxErrMsg f.path l m], [])
  | .failure m => ([], ["Could not parse " ++ f.path ++ ": " ++ m])

/-- The legacy syntax pass over all files. -/
def syntaxPass (files : List FileData) : List String × List String :=
  ((files.map syntaxFindingsFile).map Prod.fst |>.flatten,
   (files.map syntaxFindingsFile).map Prod.snd |>.flatten)

/-! ### Import pass (`_check_import_errors`, legacy version) -/

/-- The allow-list of known external dependency names. -/
def externalPkgs : List String :=
  ["selenium", "streamlit", "loguru", "pandas", "playwright"]

/-- Findings of the legacy import pass for one file, following the
`except ImportError` / `except Exception` classification. -/
def importFindingsFile (f : FileData) : List String × List String :=
  match f.importCheck with
  | .skipped => ([], [])
  | .attempted .ok => ([], [])
  | .attempted (.importError msg) =>
      if containsSub msg "No module named" then
        if externalPkgs.any (fun pkg => containsSub msg pkg) then
          ([], ["MISSING DEPENDENCY in " ++ f.path ++ ": " ++ msg])
        else
          (["IMPORT ERROR in " ++ f.path ++ ": " ++ msg], [])
      else
        (["IMPORT ERROR in " ++ f.path ++ ": " ++ msg], [])
  | .attempted (.otherExc msg) =>
      (["IMPORT ERROR in " ++ f.path ++ ": " ++ msg], [])
  | .outerFailure msg =>
      ([], ["Could not check imports for " ++ f.path ++ ": " ++ msg])

/-- The legacy import pass: `sys.path.insert(0, root)`, the per-file loop,
then `sys.path.remove(root)` guarded by a membership test.  Returns the
findings together with the final `sys.path`. -/
def importPass (projectRoot : String) (files : List FileData)
    (sysPath : List String) : (List String × List String) × List String :=
  let path1 := projectRoot :: sysPath
  let findings :=
    ((files.map importFindingsFile).map Prod.fst |>.flatten,
     (files.map importFindingsFile).map Prod.snd |>.flatten)
  let path2 := if path1.contains projectRoot then path1.erase projectRoot else path1
  (findings, path2)

/-- The legacy import pass, findings only (the dispatcher discards the
restored `sys.path`, which is process state). -/
def importPassFindings (projectRoot : String) (files : List FileData) :
    List String × List String :=
  (importPass projectRoot files []).1

/-! ### Call/definition arity pass (`_check_parameter_mismatches`) -/

/-- A collected call site: callee name, `len(node.args)`,
`len(node.keywords)`, line number. -/
structure CallSite where
  nm : String
  numArgs : Nat
  numKeywords : Nat
  lineno : Nat
  deriving DecidableEq, Repr

/-- A collected definition record: `required_args`, `total_args`, `line`.
`required_args` is an integer because Python subtraction does not
truncate. -/
structure DefRecord where
  requiredArgs : Int
  totalArgs : Nat
  line : Nat
  deriving DecidableEq, Repr

/-- The definition record for one `FunctionDef`: the positional-parameter
count, reduced by one when the first parameter is `self`, minus the number
of defaults for the required count. -/
def defRecordOf (params : List String) (numDefaults : Nat) (line : Nat) : DefRecord :=
  let argsCount := params.length
  let argsCount := if params.head? = some "self" then argsCount - 1 else argsCount
  { requiredArgs := (argsCount : Int) - (numDefaults : Int)
    totalArgs := argsCount
    line := line }

/-- All call sites whose callee is a bare `Name`, in walk order. -/
def collectCalls (tree : Node) : List CallSite :=
  (walk [tree]).filterMap fun n =>
    match n with
    | .call (.name id _ _) args numKeywords lineno =>
        some { nm := id, numArgs := args.length, numKeywords := numKeywords, lineno := lineno }
    | _ => none

/-- The `function_defs` dictionary: later definitions of the same name
overwrite earlier ones, so lookup finds the most recently inserted. -/
def collectDefs (tree : Node) : List (String × DefRecord) :=
  (walk [tree]).foldl
    (fun acc n =>
      match n with
      | .functionDef nm params numDefaults _ _ lineno =>
          (nm, defRecordOf params numDefaults lineno) :: acc
      | _ => acc)
    []

/-- The error the mismatch loop emits for one call site, if any: a
too-few error when `provided < required_args`, else a too-many error when
`provided > total_args`, and no finding for an unmatched callee. -/
def callMismatch (path : String) (defs : List (String × DefRecord))
    (c : CallSite) : Option String :=
  match defs.lookup c.nm with
  | none => none
  | some d =>
      let provided : Int := (c.numArgs : Int) + (c.numKeywords : Int)
      if provided < d.requiredArgs then
        some ("PARAMETER ERROR in " ++ path ++ ":" ++ toString c.lineno ++ ": Function "
          ++ sq ++ c.nm ++ sq ++ " requires " ++ toString d.requiredArgs
          ++ " args but " ++ toString provided ++ " provided")
      else if provided > (d.totalArgs : Int) then
        some ("PARAMETER ERROR in " ++ path ++ ":" ++ toString c.lineno ++ ": Function "
          ++ sq ++ c.nm ++ sq ++ " takes " ++ toString d.totalArgs
          ++ " args but " ++ toString provided ++ " provided")
      else none

/-- Findings of the arity pass for one file: errors from the mismatch loop,
or the catch-all warning when the file could not be read and parsed. -/
def parameterFindingsFile (f : FileData) : List String × List String :=
  match f.parse with
  | .ok tree =>
      ((collectCalls tree).filterMap (callMismatch f.path (collectDefs tree)), [])
  | .syntaxIssue _ m => ([], ["Could not check parameters in " ++ f.path ++ ": " ++ m])
  | .failure m => ([], ["Could not check parameters in " ++ f.path ++ ": " ++ m])

/-- The arity pass over all files. -/
def parameterPass (files : List FileData) : List String × List String :=
  ((files.map parameterFindingsFile).map Prod.fst |>.flatten,
   (files.map parameterFindingsFile).map Prod.snd |>.flatten)

/-! ### Undefined-variable pass (`_check_undefined_variables`) -/

/-- The builtin identifiers seeding `defined_names` in the legacy pass. -/
def builtinNames : List String :=
  ["print", "str", "int", "float", "list", "dict", "len", "range",
   "enumerate", "Exception", "ValueError", "TypeError", "ImportError",
   "KeyError", "AttributeError", "FileNotFoundError", "SyntaxError",
   "KeyboardInterrupt", "StopIteration", "isinstance", "hasattr",
   "getattr", "setattr", "delattr", "bool", "tuple", "set", "max",
   "min", "sum", "abs", "all", "any", "open", "iter", "next", "zip",
   "map", "filter", "sorted", "reversed", "format", "repr", "hash",
   "id", "type", "super", "property", "staticmethod", "classmethod",
   "callable", "vars", "dir", "globals", "locals", "exec", "eval",
   "compile", "input", "round", "pow", "divmod", "chr", "ord"]

/-- The names one visited node adds to `defined_names`: import aliases
(`asname or name`), simple assignment targets, function names and class
names. -/
def nodeAdds : Node → List String
  | .importStmt names _ => names.map (fun a => a.2.getD a.1)
  | .importFrom _ names _ => names.map (fun a => a.2.getD a.1)
  | .assign targets _ _ =>
      targets.filterMap fun t =>
        match t with
        | .name id _ _ => some id
        | _ => none
  | .functionDef nm _ _ _ _ _ => [nm]
  | .classDef nm _ _ _ => [nm]
  | _ => []

/-- The warning a visited node emits, given the current `defined_names`:
only a `Name` in `Load` context whose identifier is unknown and neither
underscore-prefixed nor upper-case. -/
def undefinedWarnAt (path : String) (defined : List String) : Node → Option String
  | .name id true lineno =>
      if defined.contains id then none
      else if startsUnderscore id || pyIsUpper id then none
      else some ("UNDEFINED VARIABLE in " ++ path ++ ":" ++ toString lineno ++ ": "
        ++ sq ++ id ++ sq ++ " may be undefined")
  | _ => none

/-- The interleaved walk of the undefined-variable pass: each node first
emits its warning against the names defined so far, then contributes its
own definitions for all later nodes. -/
def undefinedWalk (path : String) (defined : List String) : List Node → List String
  | [] => []
  | n :: ns =>
      (undefinedWarnAt path defined n).toList
        ++ undefinedWalk path (defined ++ nodeAdds n) ns

/-- Warnings of the undefined-variable pass for one parsed tree. -/
def undefinedWarningsTree (path : String) (tree : Node) : List String :=
  undefinedWalk path builtinNames (walk [tree])

/-- Findings of the undefined-variable pass for one file (warnings only). -/
def undefinedFindingsFile (f : FileData) : List String × List String :=
  match f.parse with
  | .ok tree => ([], undefinedWarningsTree f.path tree)
  | .syntaxIssue _ m =>
      ([], ["Could not check undefined variables in " ++ f.path ++ ": " ++ m])
  | .failure m =>
      ([], ["Could not check undefined variables in " ++ f.path ++ ": " ++ m])

/-- The undefined-variable pass over all files. -/
def undefinedPass (files : List FileData) : List String × List String :=
  ((files.map undefinedFindingsFile).map Prod.fst |>.flatten,
   (files.map undefinedFindingsFile).map Prod.snd |>.flatten)

/-! ### Class-method signature pass (`_check_class_method_signatures`) -/

/-- The method-signature error message. -/
def methodErrMsg (path : String) (lineno : Nat) (nm : String) : String :=
  "METHOD ERROR in " ++ path ++ ":" ++ toString lineno ++ ": Method "
    ++ sq ++ nm ++ sq ++ " should have " ++ sq ++ "self" ++ sq ++ " as first parameter"

/-- Whether a decorator list carries a bare `staticmethod` or
`classmethod` name. -/
def hasStaticDecorator (decorators : List Node) : Bool :=
  decorators.any fun d =>
    match d with
    | .name id _ _ => id == "staticmethod" || id == "classmethod"
    | _ => false

/-- The error the signature check emits for one direct class-body item:
a method with parameters whose first parameter is not `self` errs unless
its name is underscore-prefixed or it is decorated static/class;
a method with no parameters errs unconditionally. -/
def methodIssue (path : String) : Node → Option String
  | .functionDef nm params _ decorators _ lineno =>
      match params with
      | first :: _ =>
          if first ≠ "self" ∧ ¬ (startsUnderscore nm = true) then
            if hasStaticDecorator decorators then none
            else some (methodErrMsg path lineno nm)
          else none
      | [] => some (methodErrMsg path lineno nm)
  | _ => none

/-- Errors of the method-signature pass for one parsed tree: every class
definition in walk order contributes the issues of its direct body items. -/
def methodErrorsTree (path : String) (tree : Node) : List String :=
  ((walk [tree]).map fun n =>
    match n with
    | .classDef _ _ body _ => body.filterMap (methodIssue path)
    | _ => []).flatten

/-- Findings of the method-signature pass for one file. -/
def methodFindingsFile (f : FileData) : List String × List String :=
  match f.parse with
  | .ok tree => (methodErrorsTree f.path tree, [])
  | .syntaxIssue _ m => ([], ["Could not check class methods in " ++ f.path ++ ": " ++ m])
  | .failure m => ([], ["Could not check class methods in " ++ f.path ++ ": " ++ m])

/-- The method-signature pass over all files. -/
def methodPass (files : List FileData) : List String × List String :=
  ((files.map methodFindingsFile).map Prod.fst |>.flatten,
   (files.map methodFindingsFile).map Prod.snd |>.flatten)

/-! ### Legacy dispatcher (`analyze_all` / `analyze_specific`)

`self.errors` / `self.warnings` are the analyzer's mutable state; both
entry points assign fresh empty lists before running any check, then the
checks append.  The state is threaded explicitly. -/

/-- The mutable `self.errors` / `self.warnings` buckets of an analyzer. -/
structure AnalyzerState where
  errors : List String
  warnings : List String
  deriving DecidableEq, Repr

/-- Append one pass's findings to the analyzer buckets. -/
def AnalyzerState.addFindings (s : AnalyzerState) (f : List String × List String) :
    AnalyzerState :=
  { errors := s.errors ++ f.1, warnings := s.warnings ++ f.2 }

/-- `analyze_all`: reset both buckets, run the five checks in order,
return the buckets; the final analyzer state is the filled buckets. -/
def analyzeAllSt (root : String) (_s : AnalyzerState) (files : List FileData) :
    AnalyzerState × AnalysisResult :=
  let s : AnalyzerState := { errors := [], warnings := [] }
  let s := s.addFindings (syntaxPass files)
  let s := s.addFindings (importPassFindings root files)
  let s := s.addFindings (parameterPass files)
  let s := s.addFindings (undefinedPass files)
  let s := s.addFindings (methodPass files)
  (s, { errors := s.errors, warnings := s.warnings })

/-- `analyze_specific`: reset both buckets, run the selected check
(`comprehensive` delegates to `analyze_all`; an unrecognized type appends
an `Unknown analysis type` message to `self.errors`). -/
def analyzeSpecificSt (root : String) (s : AnalyzerState) (files : List FileData)
    (analysisType : String) : AnalyzerState × AnalysisResult :=
  let s0 : AnalyzerState := { errors := [], warnings := [] }
  if analysisType = "syntax" then
    let s1 := s0.addFindings (syntaxPass files)
    (s1, { errors := s1.errors, warnings := s1.warnings })
  else if analysisType = "imports" then
    let s1 := s0.addFindings (importPassFindings root files)
    (s1, { errors := s1.errors, warnings := s1.warnings })
  else if analysisType = "parameters" then
    let s1 := s0.addFindings (parameterPass files)
    (s1, { errors := s1.errors, warnings := s1.warnings })
  else if analysisType = "methods" then
    let s1 := s0.addFindings (methodPass files)
    (s1, { errors := s1.errors, warnings := s1.warnings })
  else if analysisType = "comprehensive" then
    analyzeAllSt root s files
  else
    let s1 : AnalyzerState :=
      { errors := ["Unknown analysis type: " ++ analysisType], warnings := [] }
    (s1, { errors := s1.errors, warnings := s1.warnings })

/-- `analyze_all` on a freshly constructed analyzer. -/
def analyzeAll (root : String) (files : List FileData) : AnalysisResult :=
  (analyzeAllSt root { errors := [], warnings := [] } files).2

/-- `analyze_specific` on a freshly constructed analyzer. -/
def analyzeSpecific (root : String) (files : List FileData)
    (analysisType : String) : AnalysisResult :=
  (analyzeSpecificSt root { errors := [], warnings := [] } files analysisType).2

/-- A sequence of `analyze_specific` calls on one analyzer object,
threading its mutable buckets between calls and collecting each call's
returned result. -/
def runCallSequence (root : String) (s : AnalyzerState) (files : List FileData) :
    List String → List AnalysisResult
  | [] => []
  | t :: ts =>
      let (s1, r) := analyzeSpecificSt root s files t
      r :: runCallSequence root s1 files ts

end ProjectAnalyzer

namespace ProjectAnalyzer

/-! ### Packaged analyzer (`src/src/analyzers/code_analyzer.py`)

Its arity, undefined-variable and method-signature logic is identical to
the legacy analyzer up to message wording; the dispatcher and the import
pass differ.  The dispatcher's behavior on an unrecognized type, the part
the claims exercise, is embedded faithfully; the pass branches reuse the
shared per-file pass functions. -/

namespace Packaged

/-- Warnings of the packaged undefined-variable pass for one parsed tree:
same interleaved walk, but `defined_names` starts empty (no builtin
seed). -/
def undefinedWarningsTree (path : String) (tree : Node) : List String :=
  undefinedWalk path [] (walk [tree])

/-- Findings of the packaged undefined-variable pass for one file. -/
def undefinedFindingsFile (f : FileData) : List String × List String :=
  match f.parse with
  | .ok tree => ([], undefinedWarningsTree f.path tree)
  | .syntaxIssue _ m =>
      ([], ["Could not check variables for " ++ f.path ++ ": " ++ m])
  | .failure m =>
      ([], ["Could not check variables for " ++ f.path ++ ": " ++ m])

/-- Packaged undefined-variable pass over all files. -/
def undefinedPass (files : List FileData) : List String × List String :=
  ((files.map undefinedFindingsFile).map Prod.fst |>.flatten,
   (files.map undefinedFindingsFile).map Prod.snd |>.flatten)

/-- `_check_module_exists`: classify one module-resolution outcome.  A
plain `ImportError` is a warning when the name is dotted or
underscore-prefixed and an error otherwise; any other exception is a
warning.  The `finally` block restores `sys.path` on every path. -/
def moduleExistsFindings (path : String) (moduleName : String)
    (o : ImportOutcome) : List String × List String :=
  match o with
  | .ok => ([], [])
  | .importError _ =>
      if containsSub moduleName "." || startsUnderscore moduleName then
        ([], ["Potential missing module " ++ sq ++ moduleName ++ sq ++ " in " ++ path])
      else
        (["Cannot import " ++ sq ++ moduleName ++ sq ++ " in " ++ path], [])
  | .otherExc msg =>
      ([], ["Error checking module " ++ sq ++ moduleName ++ sq ++ " in " ++ path
        ++ ": " ++ msg])

/-- The module names the packaged import pass resolves for one tree, in
walk order: each plain-import alias name and each `from X import ...`
module `X`. -/
def importedModules (tree : Node) : List String :=
  ((walk [tree]).map fun n =>
    match n with
    | .importStmt names _ => names.map Prod.fst
    | .importFrom (some m) _ _ => [m]
    | _ => []).flatten

/-- Packaged import pass: resolve every imported module of every parsed
file through the oracle `resolve`. -/
def importPass (resolve : String → ImportOutcome) (files : List FileData) :
    List String × List String :=
  let perFile : FileData → List String × List String := fun f =>
    match f.parse with
    | .ok tree =>
        (((importedModules tree).map fun m =>
            moduleExistsFindings f.path m (resolve m)).map Prod.fst |>.flatten,
         ((importedModules tree).map fun m =>
            moduleExistsFindings f.path m (resolve m)).map Prod.snd |>.flatten)
    | .syntaxIssue _ m => ([], ["Could not check imports for " ++ f.path ++ ": " ++ m])
    | .failure m => ([], ["Could not check imports for " ++ f.path ++ ": " ++ m])
  ((files.map perFile).map Prod.fst |>.flatten,
   (files.map perFile).map Prod.snd |>.flatten)

/-- Packaged `analyze_specific`: reset the buckets, run the selected pass
(`syntax` / `imports` / `parameters` / `variables` / `methods`); any other
value appends an `Unknown analysis type` message to `self.warnings`. -/
def analyzeSpecific (resolve : String → ImportOutcome) (files : List FileData)
    (analysisType : String) : AnalysisResult :=
  if analysisType = "syntax" then
    { errors := (syntaxPass files).1, warnings := (syntaxPass files).2 }
  else if analysisType = "imports" then
    { errors := (importPass resolve files).1, warnings := (importPass resolve files).2 }
  else if analysisType = "parameters" then
    { errors := (parameterPass files).1, warnings := (parameterPass files).2 }
  else if analysisType = "variables" then
    { errors := (undefinedPass files).1, warnings := (undefinedPass files).2 }
  else if analysisType = "methods" then
    { errors := (methodPass files).1, warnings := (methodPass files).2 }
  else
    { errors := [], warnings := ["Unknown analysis type: " ++ analysisType] }

end Packaged

/-! ### File discovery (`_get_python_files`) -/

/-- A directory: its name, subdirectories and plain file names. -/
inductive DirTree where
  | mk (nm : String) (subdirs : List DirTree) (files : List String)

/-- The name of a directory. -/
def DirTree.name : DirTree → String
  | .mk nm _ _ => nm

/-- The directory names `os.walk` is pruned at. -/
def skipDirs : List String :=
  ["venv", "__pycache__", ".git", "storage", ".pytest_cache",
   "node_modules", "mcp-servers"]

/-- Recursive descent with fuel (one unit per directory level): collect
every `*.py` file path, never descending into a skipped directory. -/
def pyFilesFuel : Nat → String → DirTree → List String
  | 0, _, _ => []
  | fuel + 1, dirpath, .mk _ subdirs files =>
      (files.filter fun f => f.takeRight 3 == ".py").map (fun f => dirpath ++ "/" ++ f)
        ++ (subdirs.map fun d =>
              if skipDirs.contains d.name then []
              else pyFilesFuel fuel (dirpath ++ "/" ++ d.name) d).flatten

mutual

/-- The number of directories in a tree (an upper bound on its depth). -/
def DirTree.dirCount : DirTree → Nat
  | .mk _ subdirs _ => 1 + dirCountList subdirs

/-- The number of directories in a list of trees. -/
def dirCountList : List DirTree → Nat
  | [] => 0
  | d :: ds => DirTree.dirCount d + dirCountList ds

end

/-- `_get_python_files`: `os.walk` of a root that does not exist yields no
entries, hence an empty result; otherwise the pruned recursive descent. -/
def getPythonFiles (rootPath : String) : Option DirTree → List String
  | none => []
  | some t => pyFilesFuel t.dirCount rootPath t

/-- All file names appearing anywhere in a tree, unpruned (with fuel). -/
def allFilesFuel : Nat → DirTree → List String
  | 0, _ => []
  | fuel + 1, .mk _ subdirs files =>
      files ++ (subdirs.map fun d => allFilesFuel fuel d).flatten

/-- Whether no file anywhere in the tree is a `*.py` file. -/
def treeHasNoPy (t : DirTree) : Bool :=
  (allFilesFuel t.dirCount t).all fun f => !(f.takeRight 3 == ".py")

/-! ### Helper lemmas -/

/-- A string contains the middle component of an append as a substring. -/
theorem containsSub_middle (a p b : String) : containsSub (a ++ (p ++ b)) p = true := by
  simp only [containsSub, decide_eq_true_eq]
  exact ⟨a.data, b.data, by simp [String.data_append]⟩

/-- A string contains its first append component as a substring. -/
theorem containsSub_left (p b : String) : containsSub (p ++ b) p = true := by
  simp only [containsSub, decide_eq_true_eq]
  exact ⟨[], b.data, by simp [String.data_append]⟩

/-- The interleaved undefined-variable walk splits at any point: the nodes
after the split are checked against the initial defined set extended by
exactly the definitions contributed by the nodes before the split. -/
theorem undefinedWalk_append (path : String) (pre post : List Node) (d : List String) :
    undefinedWalk path d (pre ++ post) =
      undefinedWalk path d pre
        ++ undefinedWalk path (d ++ (pre.map nodeAdds).flatten) post := by
  induction pre generalizing d with
  | nil => simp [undefinedWalk]
  | cons p pre ih => simp [undefinedWalk, ih, List.append_assoc]

/-- Pruned discovery on a tree none of whose files is a `*.py` file finds
nothing, for any fuel and base path. -/
theorem pyFilesFuel_eq_nil (fuel : Nat) :
    ∀ (dirpath : String) (t : DirTree),
      (allFilesFuel fuel t).all (fun f => !(f.takeRight 3 == ".py")) = true →
      pyFilesFuel fuel dirpath t = [] := by
  induction fuel with
  | zero => intro _ _ _; rfl
  | succ fuel ih =>
    intro dirpath t h
    cases t with
    | mk nm subdirs files =>
      simp only [allFilesFuel, List.all_append, Bool.and_eq_true, List.all_eq_true] at h
      obtain ⟨hfiles, hsub⟩ := h
      simp only [pyFilesFuel, List.append_eq_nil, List.map_eq_nil_iff,
        List.flatten_eq_nil_iff, List.mem_map]
      constructor
      · exact List.filter_eq_nil_iff.mpr fun f hf => by simpa using hfiles f hf
      · rintro l ⟨d, hd, rfl⟩
        split
        next => rfl
        next hskip =>
          refine ih _ d ?_
          simp only [List.all_eq_true]
          intro f hf
          refine hsub f ?_
          simp only [List.mem_flatten, List.mem_map]
          exact ⟨allFilesFuel fuel d, ⟨d, hd, rfl⟩, hf⟩

/-- Prepending text preserves substring containment. -/
theorem containsSub_append_left (t s p : String) (h : containsSub s p = true) :
    containsSub (t ++ s) p = true := by
  simp only [containsSub, decide_eq_true_eq] at h ⊢
  obtain ⟨u, v, huv⟩ := h
  exact ⟨t.data ++ u, v, by simp [String.data_append, ← huv, List.append_assoc]⟩

/-! ### Claim-side definitions

These restate conditions in the spec's vocabulary, to be compared with the
source-derived functions above. -/

/-- The analysis types the spec's interface section enumerates. -/
def analysisTypes : List String :=
  ["syntax", "imports", "parameters", "variables", "methods", "comprehensive"]

/-- The spec's effective positional parameters of a definition: the first
parameter is excluded when it is the conventional receiver `self`. -/
def specEffectiveParams (params : List String) : List String :=
  if params.head? = some "self" then params.tail else params

/-- The spec's arity-error condition for one call site against the
collected definitions: a matched callee with
`provided < required ∨ provided > total`. -/
def specArityErrorCondition (defs : List (String × DefRecord)) (c : CallSite) : Bool :=
  match defs.lookup c.nm with
  | none => false
  | some d =>
      decide (((c.numArgs : Int) + (c.numKeywords : Int)) < d.requiredArgs
        ∨ ((c.numArgs : Int) + (c.numKeywords : Int)) > (d.totalArgs : Int))

/-- The method-signature violation condition the code implements: a method
with no parameters always errs; a method with parameters errs exactly when
its first parameter is not `self`, its name is not underscore-prefixed and
it has no static/class decorator. -/
def methodViolationCondition (nm : String) (params : List String)
    (decorators : List Node) : Bool :=
  match params with
  | [] => true
  | first :: _ =>
      decide (first ≠ "self") && !startsUnderscore nm && !hasStaticDecorator decorators

/-- Whether some node of the file defines the identifier, in the claim's
sense: an import alias, a simple assignment target, a function definition
or a class definition anywhere in the tree. -/
def definesNameInTree (tree : Node) (id : String) : Bool :=
  ((walk [tree]).map nodeAdds).flatten.contains id

/-- The message of a plain Python module-resolution failure
(`ModuleNotFoundError`) for a module name. -/
def noModuleMsg (m : String) : String :=
  "No module named " ++ sq ++ m ++ sq

/-- A plain resolution-failure message contains `No module named`. -/
theorem containsSub_noModule (m : String) :
    containsSub (noModuleMsg m) "No module named" = true := by
  have h : noModuleMsg m = "No module named" ++ (" " ++ (sq ++ (m ++ sq))) := by
    rw [noModuleMsg, String.append_assoc, String.append_assoc,
      show ("No module named " : String) = "No module named" ++ " " from rfl,
      String.append_assoc]
  rw [h]
  exact containsSub_left _ _

/-- A plain resolution-failure message contains the module name. -/
theorem containsSub_noModule_self (m : String) :
    containsSub (noModuleMsg m) m = true := by
  rw [noModuleMsg, String.append_assoc, String.append_assoc]
  exact containsSub_append_left _ _ _ (containsSub_middle _ _ _)

/-! ### Concrete input trees used by the claims -/

/-- A file with the definition `f(a, b, c=1)` and the call sites `f(1)`,
`f(1,2)`, `f(1,2,3)` and `f(1,2,3,4)` on lines 3 to 6. -/
def arityExampleTree : Node :=
  .module
    [.functionDef "f" ["a", "b", "c"] 1 [] [.constant 2] 1,
     .exprStmt (.call (.name "f" true 3) [.constant 3] 0 3) 3,
     .exprStmt (.call (.name "f" true 4) [.constant 4, .constant 4] 0 4) 4,
     .exprStmt (.call (.name "f" true 5) [.constant 5, .constant 5, .constant 5] 0 5) 5,
     .exprStmt (.call (.name "f" true 6) [.constant 6, .constant 6, .constant 6, .constant 6] 0 6) 6]

/-- A class whose only method `_hidden` has an underscore-prefixed name and
declares no parameters. -/
def methodExampleTree : Node :=
  .module
    [.classDef "C" []
      [.functionDef "_hidden" [] 0 [] [.constant 2] 2] 1]

/-- A class exercising every branch of the method-signature check:
`run(self)` is fine, `bad(value)` errs, `_quiet(value)` is exempted by its
name, `sm(x)` is exempted by its `staticmethod` decorator, and the
zero-parameter `sz()` errs despite its `staticmethod` decorator. -/
def methodVariantsTree : Node :=
  .module
    [.classDef "D" []
      [.functionDef "run" ["self"] 0 [] [.constant 2] 2,
       .functionDef "bad" ["value"] 0 [] [.constant 3] 3,
       .functionDef "_quiet" ["value"] 0 [] [.constant 4] 4,
       .functionDef "sm" ["x"] 0 [.name "staticmethod" true 5] [.constant 5] 5,
       .functionDef "sz" [] 0 [.name "staticmethod" true 6] [.constant 6] 6] 1]

/-- A module-level use of `y` on line 1 followed by a function whose body
assigns `y` on line 2: the defining node is visited after the use in the
breadth-first walk. -/
def undefinedExampleTree : Node :=
  .module
    [.exprStmt (.name "y" true 1) 1,
     .functionDef "f" [] 0 [] [.assign [.name "y" false 2] (.constant 2) 2] 2]

/-! ### Claim theorems -/

/-- Claim C2: in the arity pass, for every call whose callee is a bare name
matching a definition collected from the same file, with
`provided = positional-argument count + keyword-argument count`, an Error
is emitted if and only if `provided < required` or `provided > total`; and
on a file defining `f(a, b, c=1)` (required 2, total 3) with call sites
`f(1)`, `f(1,2)`, `f(1,2,3)`, `f(1,2,3,4)`, exactly the first call yields a
too-few Error and exactly the fourth a too-many Error. -/
theorem c2_arity_error_iff :
    (∀ (path : String) (defs : List (String × DefRecord)) (c : CallSite),
      (callMismatch path defs c).isSome = specArityErrorCondition defs c) ∧
    parameterPass [⟨"ex.py", .ok arityExampleTree, .skipped⟩] =
      (["PARAMETER ERROR in ex.py:3: Function " ++ sq ++ "f" ++ sq
          ++ " requires 2 args but 1 provided",
        "PARAMETER ERROR in ex.py:6: Function " ++ sq ++ "f" ++ sq
          ++ " takes 3 args but 4 provided"], []) := by
  constructor
  · intro path defs c
    unfold callMismatch specArityErrorCondition
    cases h : defs.lookup c.nm with
    | none => rfl
    | some d =>
      by_cases h1 : ((c.numArgs : Int) + (c.numKeywords : Int)) < d.requiredArgs
      · simp [h1]
      · by_cases h2 : ((c.numArgs : Int) + (c.numKeywords : Int)) > (d.totalArgs : Int)
        · simp [h1, h2]
        · simp [h1, h2]
  · decide

/-- Claim C7: the collected required count of a definition equals its
positional-parameter count minus its default count, and a leading `self`
parameter is excluded from both the required and the total count (the
subtraction is integer subtraction, as in the source). -/
theorem c7_def_record_counts (params : List String) (numDefaults line : Nat) :
    (defRecordOf params numDefaults line).totalArgs = (specEffectiveParams params).length ∧
    (defRecordOf params numDefaults line).requiredArgs =
      ((specEffectiveParams params).length : Int) - (numDefaults : Int) := by
  cases params with
  | nil => simp [defRecordOf, specEffectiveParams]
  | cons a as =>
    by_cases h : a = "self"
    · simp [defRecordOf, specEffectiveParams, h]
    · simp [defRecordOf, specEffectiveParams, h]

/-- Claim C3 counterexample: the zero-parameter method `_hidden` has an
underscore-prefixed name, which the claim says exempts it, yet the
method-signature pass emits an Error naming it. -/
theorem c3_counterexample :
    startsUnderscore "_hidden" = true ∧
    methodPass [⟨"m.py", .ok methodExampleTree, .skipped⟩] =
      ([methodErrMsg "m.py" 2 "_hidden"], []) := by decide

/-- Claim C3 amended: a method defined directly in a class body that
declares parameters is flagged exactly when its first parameter is not
`self`, its name is not underscore-prefixed and it carries no
static/class-method decorator; a method that declares no parameters is
flagged unconditionally — the underscore and decorator exemptions do not
apply to the zero-parameter case.  The variants file exercises every
branch. -/
theorem c3_method_flag_characterization :
    (∀ (path nm : String) (params : List String) (numDefaults : Nat)
      (decorators body : List Node) (lineno : Nat),
      (methodIssue path (.functionDef nm params numDefaults decorators body lineno)).isSome
        = methodViolationCondition nm params decorators) ∧
    methodPass [⟨"d.py", .ok methodVariantsTree, .skipped⟩] =
      ([methodErrMsg "d.py" 3 "bad", methodErrMsg "d.py" 6 "sz"], []) := by
  constructor
  · intro path nm params numDefaults decorators body lineno
    cases params with
    | nil => rfl
    | cons first rest =>
      by_cases h1 : first = "self"
      · simp [methodIssue, methodViolationCondition, h1]
      · by_cases h2 : startsUnderscore nm = true
        · simp [methodIssue, methodViolationCondition, h1, h2]
        · by_cases h3 : hasStaticDecorator decorators = true
          · simp [methodIssue, methodViolationCondition, h1, h2, h3]
          · simp [methodIssue, methodViolationCondition, h1, h2, h3]
  · decide

/-- Claim C8: the legacy import pass inserts the project root at the head
of the module search path and, after the per-file loop (in which every
resolution failure and resolution exception has been converted to a
finding rather than propagating), removes the first occurrence of the
root; the final search path equals the initial one on every input, so the
temporarily added entry is gone and all other entries are unchanged. -/
theorem c8_search_path_restored (projectRoot : String) (files : List FileData)
    (sysPath : List String) :
    (importPass projectRoot files sysPath).2 = sysPath := by
  simp [importPass, List.erase_cons_head]

/-- Claim C4 counterexample: in `undefinedExampleTree` the identifier `y`
is defined in the file (a simple assignment target inside `f`), yet the
undefined-variable pass warns about the earlier module-level use of `y`,
because the defining node is visited after the use in the single
interleaved breadth-first walk. -/
theorem c4_counterexample :
    definesNameInTree undefinedExampleTree "y" = true ∧
    undefinedPass [⟨"u.py", .ok undefinedExampleTree, .skipped⟩] =
      ([], ["UNDEFINED VARIABLE in u.py:1: " ++ sq ++ "y" ++ sq
        ++ " may be undefined"]) := by decide

/-- Claim C4 amended: the pass checks uses and collects definitions in one
interleaved breadth-first walk, so an identifier is treated as known at a
use exactly when it is a seeded builtin or is defined by some node visited
earlier in the walk order; a defining node visited later does not suppress
the warning.  Formally, the warning emitted for any node in the walk
depends only on the seed extended by the definitions of the nodes
preceding it, and the nodes after it contribute nothing to that check. -/
theorem c4_walk_order_determines_known :
    (∀ (path : String) (tree : Node),
      undefinedWarningsTree path tree = undefinedWalk path builtinNames (walk [tree])) ∧
    (∀ (path : String) (d : List String) (pre post : List Node) (n : Node),
      undefinedWalk path d (pre ++ n :: post) =
        undefinedWalk path d pre
          ++ (undefinedWarnAt path (d ++ (pre.map nodeAdds).flatten) n).toList
          ++ undefinedWalk path (d ++ (pre.map nodeAdds).flatten ++ nodeAdds n) post) := by
  refine ⟨fun _ _ => rfl, ?_⟩
  intro path d pre post n
  rw [undefinedWalk_append path pre (n :: post) d]
  simp [undefinedWalk, List.append_assoc]

/-- Claim C6: per file, the syntax pass emits one Error containing the file
path and the parser's line number on a parse failure, one Warning (and no
Error) on any other per-file failure, and nothing on a successful parse;
the pass over a file list is the concatenation of these per-file
findings. -/
theorem c6_syntax_pass_classification :
    (∀ (path : String) (ic : ImportCheckOutcome) (tree : Node),
      syntaxFindingsFile ⟨path, .ok tree, ic⟩ = ([], [])) ∧
    (∀ (path : String) (ic : ImportCheckOutcome) (lineno : Nat) (msg : String),
      syntaxFindingsFile ⟨path, .syntaxIssue lineno msg, ic⟩ =
        ([syntaxErrMsg path lineno msg], []) ∧
      containsSub (syntaxErrMsg path lineno msg) path = true ∧
      containsSub (syntaxErrMsg path lineno msg) (toString lineno) = true) ∧
    (∀ (path : String) (ic : ImportCheckOutcome) (msg : String),
      syntaxFindingsFile ⟨path, .failure msg, ic⟩ =
        ([], ["Could not parse " ++ path ++ ": " ++ msg])) ∧
    (∀ (files : List FileData),
      syntaxPass files =
        (((files.map syntaxFindingsFile).map Prod.fst).flatten,
         ((files.map syntaxFindingsFile).map Prod.snd).flatten)) := by
  refine ⟨fun _ _ _ => rfl, ?_, fun _ _ _ => rfl, fun _ => rfl⟩
  intro path ic lineno msg
  refine ⟨rfl, ?_, ?_⟩
  · rw [syntaxErrMsg]
    simp only [String.append_assoc]
    exact containsSub_middle _ _ _
  · rw [syntaxErrMsg]
    simp only [String.append_assoc]
    exact containsSub_append_left _ _ _
      (containsSub_append_left _ _ _ (containsSub_middle _ _ _))

/-- Claim C9: the analysis is total in the embedding and always yields the
two-bucket result; file discovery yields an empty list (not an error) for
a nonexistent root and for a tree containing no `*.py` file, and with no
files every analysis type, comprehensive included, returns empty
buckets. -/
theorem c9_empty_discovery_empty_buckets :
    getPythonFiles "/proj" none = [] ∧
    (∀ (rootPath : String) (t : DirTree), treeHasNoPy t = true →
      getPythonFiles rootPath (some t) = []) ∧
    analyzeAll "/proj" [] = { errors := [], warnings := [] } ∧
    analyzeSpecific "/proj" [] "syntax" = { errors := [], warnings := [] } ∧
    analyzeSpecific "/proj" [] "imports" = { errors := [], warnings := [] } ∧
    analyzeSpecific "/proj" [] "parameters" = { errors := [], warnings := [] } ∧
    analyzeSpecific "/proj" [] "methods" = { errors := [], warnings := [] } ∧
    analyzeSpecific "/proj" [] "comprehensive" = { errors := [], warnings := [] } := by
  refine ⟨rfl, ?_, by decide, by decide, by decide, by decide, by decide, by decide⟩
  intro rootPath t h
  exact pyFilesFuel_eq_nil _ _ _ h

/-- Claim C9 witness: the discovery clause applied to a concrete tree with
no Python files. -/
theorem c9_empty_discovery_empty_buckets_witness :
    treeHasNoPy (.mk "proj" [.mk "docs" [] ["b.txt"]] ["readme.md"]) = true ∧
    getPythonFiles "/root" (some (.mk "proj" [.mk "docs" [] ["b.txt"]] ["readme.md"])) = [] :=
  ⟨by decide,
   c9_empty_discovery_empty_buckets.2.1 "/root"
     (.mk "proj" [.mk "docs" [] ["b.txt"]] ["readme.md"]) (by decide)⟩

/-- Claim C10: both entry points assign fresh empty buckets before running
any check, so their result does not depend on the analyzer's prior state,
and a sequence of `analyze_specific` calls on one analyzer object returns
exactly the per-call results of a fresh analyzer: findings never
accumulate across calls. -/
theorem c10_buckets_reset_per_call :
    (∀ (root : String) (s1 s2 : AnalyzerState) (files : List FileData),
      analyzeAllSt root s1 files = analyzeAllSt root s2 files) ∧
    (∀ (root : String) (s1 s2 : AnalyzerState) (files : List FileData) (t : String),
      analyzeSpecificSt root s1 files t = analyzeSpecificSt root s2 files t) ∧
    (∀ (root : String) (s : AnalyzerState) (files : List FileData) (reqs : List String),
      runCallSequence root s files reqs =
        reqs.map fun t => analyzeSpecific root files t) := by
  refine ⟨fun _ _ _ _ => rfl, fun _ _ _ _ _ => rfl, ?_⟩
  intro root s files reqs
  induction reqs generalizing s with
  | nil => rfl
  | cons t ts ih =>
    simp only [runCallSequence, List.map_cons, ih, analyzeSpecific]
    exact rfl

/-- Claim C1 counterexample: for the unrecognized analysis type `bogus`,
the legacy `analyze_specific` returns the `Unknown analysis type` message
in the errors bucket and an empty warnings bucket — the opposite of the
claimed classification. -/
theorem c1_counterexample :
    analysisTypes.contains "bogus" = false ∧
    analyzeSpecific "/proj" [] "bogus" =
      { errors := ["Unknown analysis type: bogus"], warnings := [] } := by decide

/-- Claim C1 amended: in the packaged analyzer, every analysis type outside
the recognized set yields exactly one `Unknown analysis type` Warning and
an empty errors bucket; the legacy top-level analyzer instead appends the
same message to errors. -/
theorem c1_unknown_type_is_warning (resolve : String → ImportOutcome)
    (files : List FileData) (analysisType : String)
    (h : analysisType ∉ analysisTypes) :
    Packaged.analyzeSpecific resolve files analysisType =
      { errors := [], warnings := ["Unknown analysis type: " ++ analysisType] } := by
  simp only [analysisTypes, List.mem_cons, List.not_mem_nil, or_false, not_or] at h
  obtain ⟨h1, h2, h3, h4, h5, _⟩ := h
  simp [Packaged.analyzeSpecific, h1, h2, h3, h4, h5]

/-- Claim C1 witness: the amended theorem at the concrete type `bogus2`. -/
theorem c1_unknown_type_is_warning_witness :
    "bogus2" ∉ analysisTypes ∧
    Packaged.analyzeSpecific (fun _ => .ok) [] "bogus2" =
      { errors := [], warnings := ["Unknown analysis type: bogus2"] } :=
  ⟨by decide, c1_unknown_type_is_warning (fun _ => .ok) [] "bogus2" (by decide)⟩

/-- Claim C5 counterexample: an exception raised during the resolution
attempt that is not an `ImportError` is recorded as an `IMPORT ERROR`
Error by the legacy import pass, with no Warning — the claim says such
exceptions always yield a Warning and never an Error. -/
theorem c5_counterexample :
    importPassFindings "/proj"
      [⟨"a.py", .ok (.module []), .attempted (.otherExc "boom")⟩] =
      (["IMPORT ERROR in a.py: boom"], []) := by decide

/-- Claim C5 amended: a plain resolution failure (`No module named ...`)
whose message mentions an allow-listed external package yields a
`MISSING DEPENDENCY` Warning; a plain resolution failure mentioning no
allow-listed package yields an `IMPORT ERROR` Error; but a non-ImportError
exception during the resolution attempt itself yields an Error, not a
Warning — only failures in the per-file handling outside the import
attempt are downgraded to Warnings. -/
theorem c5_import_classification :
    (∀ (path : String) (pr : ParseOutcome) (m : String), m ∈ externalPkgs →
      importFindingsFile ⟨path, pr, .attempted (.importError (noModuleMsg m))⟩ =
        ([], ["MISSING DEPENDENCY in " ++ path ++ ": " ++ noModuleMsg m])) ∧
    (∀ (path : String) (pr : ParseOutcome) (m : String),
      externalPkgs.any (fun pkg => containsSub (noModuleMsg m) pkg) = false →
      importFindingsFile ⟨path, pr, .attempted (.importError (noModuleMsg m))⟩ =
        (["IMPORT ERROR in " ++ path ++ ": " ++ noModuleMsg m], [])) ∧
    (∀ (path : String) (pr : ParseOutcome) (msg : String),
      importFindingsFile ⟨path, pr, .attempted (.otherExc msg)⟩ =
        (["IMPORT ERROR in " ++ path ++ ": " ++ msg], [])) ∧
    (∀ (path : String) (pr : ParseOutcome) (msg : String),
      importFindingsFile ⟨path, pr, .outerFailure msg⟩ =
        ([], ["Could not check imports for " ++ path ++ ": " ++ msg])) := by
  refine ⟨?_, ?_, fun _ _ _ => rfl, fun _ _ _ => rfl⟩
  · intro path pr m hm
    have h1 := containsSub_noModule m
    have h2 : externalPkgs.any (fun pkg => containsSub (noModuleMsg m) pkg) = true :=
      List.any_eq_true.mpr ⟨m, hm, containsSub_noModule_self m⟩
    simp [importFindingsFile, h1, h2]
  · intro path pr m h
    have h1 := containsSub_noModule m
    simp [importFindingsFile, h1, h]

/-- Claim C5 witness: the amended classification at the allow-listed
module `pandas` and at the local module `mymodule`. -/
theorem c5_import_classification_witness :
    ("pandas" ∈ externalPkgs ∧
      importFindingsFile ⟨"a.py", .ok (.module []),
          .attempted (.importError (noModuleMsg "pandas"))⟩ =
        ([], ["MISSING DEPENDENCY in a.py: " ++ noModuleMsg "pandas"])) ∧
    (externalPkgs.any (fun pkg => containsSub (noModuleMsg "mymodule") pkg) = false ∧
      importFindingsFile ⟨"a.py", .ok (.module []),
          .attempted (.importError (noModuleMsg "mymodule"))⟩ =
        (["IMPORT ERROR in a.py: " ++ noModuleMsg "mymodule"], [])) :=
  ⟨⟨by decide, c5_import_classification.1 "a.py" (.ok (.module [])) "pandas" (by decide)⟩,
   ⟨by decide, c5_import_classification.2.1 "a.py" (.ok (.module [])) "mymodule" (by decide)⟩⟩

end ProjectAnalyzer

